import Mathlib

/-!
Verification of the SimpleWhisper coordination core against its code.

This file shallowly embeds the state and operations of `AudioManager`
(`src/AudioManager.py`), `WhisperManager` (`src/WhisperManager.py`) and
`UIStateManager` (`src/UIStateManager.py`) as pure Lean functions, and proves
or refutes the specification's claims about them.  Stateful Python methods
become state-passing functions returning the updated state together with the
list of callback events they (would) emit; background threads become explicit
counters or pure consumer functions over the queue contents.
-/

namespace SimpleWhisper

/-! ## AudioManager (src/AudioManager.py)

The audio payload of one hardware buffer is opaque to the manager; we model a
frame by a natural number tag.  The signal queue `audio_q` holds either real
frames or the `None` end-of-recording sentinel (`queue.Queue` preserves FIFO
order; we model its contents as a list, newest at the tail). -/

abbrev Frame := Nat

/-- An item of `AudioManager.audio_q`: a real frame (`indata.copy()`) or the
`None` sentinel pushed by `_audio_callback` when recording has ended. -/
inductive QItem where
  | frame (f : Frame)
  | sentinel
deriving DecidableEq, Repr

/-- The mutable fields of `AudioManager` relevant to recording control.
`streamOpen` models `self.stream is not None`; `writerRunning` models
`self.file_writer_thread` being alive (started by `start_recording`, alive
until the worker consumes the sentinel). -/
structure AudioState where
  streamOpen : Bool
  recording : Bool
  previously_recording : Bool
  audio_q : List QItem
  current_filename : Option Nat
  writerRunning : Bool
deriving DecidableEq, Repr

/-- Callback events scheduled by `AudioManager` via `_schedule_callback`. -/
inductive AudioEvent where
  | error (msg : String)
  | recordingStarted
  | recordingStopped
  | fileReady (path : Nat)
deriving DecidableEq, Repr

/-- `AudioManager._audio_callback(indata, frames, time, status)`: while
`self.recording`, pushes a copy of the buffer and sets
`previously_recording`; otherwise, if `previously_recording`, pushes the
`None` sentinel once and clears the flag. -/
def audio_callback (s : AudioState) (indata : Frame) : AudioState :=
  if s.recording then
    { s with audio_q := s.audio_q ++ [QItem.frame indata],
             previously_recording := true }
  else if s.previously_recording then
    { s with audio_q := s.audio_q ++ [QItem.sentinel],
             previously_recording := false }
  else s

/-- A run of consecutive hardware callbacks (no control calls in between). -/
def run_callbacks (s : AudioState) (inputs : List Frame) : AudioState :=
  inputs.foldl audio_callback s

/-- `AudioManager.start_recording()`.  `fresh` stands for the unique temp
path produced by `tempfile.mktemp`.  Mirrors the source order: reject while
`self.recording`; reject when `self.stream` is `None`; otherwise drain any
leftover queue items, pick a fresh filename, start the file-writer thread,
set `recording` and schedule `on_recording_started`. -/
def start_recording (s : AudioState) (fresh : Nat) : AudioState × List AudioEvent :=
  if s.recording then
    (s, [AudioEvent.error "Recording is already in progress"])
  else if !s.streamOpen then
    (s, [AudioEvent.error "No audio stream available. Check audio device."])
  else
    ({ s with audio_q := [],
              current_filename := some fresh,
              writerRunning := true,
              recording := true },
     [AudioEvent.recordingStarted])

/-- `AudioManager.stop_recording()`: reject when not `self.recording`;
otherwise clear the flag and schedule `on_recording_stopped` (the
file-completion wait is a separate polling step not modelled here). -/
def stop_recording (s : AudioState) : AudioState × List AudioEvent :=
  if !s.recording then
    (s, [AudioEvent.error "No recording in progress"])
  else
    ({ s with recording := false }, [AudioEvent.recordingStopped])

/-- `AudioManager._file_writer_worker`: repeatedly `get` from the queue,
stop at the `None` sentinel, write every real frame.  Given the eventual
queue contents it returns the frames written (in order) and the items left
unconsumed after the sentinel; `none` means the worker is still blocked on
`audio_q.get()` (no sentinel arrived). -/
def file_writer_worker : List QItem → Option (List Frame × List QItem)
  | [] => none
  | QItem.sentinel :: rest => some ([], rest)
  | QItem.frame f :: rest =>
      (file_writer_worker rest).map (fun p => (f :: p.1, p.2))

/-- `AudioManager.is_ready()`: `self.stream is not None and not self.recording`. -/
def is_ready (s : AudioState) : Bool :=
  s.streamOpen && !s.recording

/-- The specification's `Draining` phase in terms of the code's state: the
stop request already cleared the recording flag but the file-writer thread
has not yet finished. -/
def draining (s : AudioState) : Bool :=
  !s.recording && s.writerRunning

/-- The state of a freshly constructed `AudioManager` whose stream opened
successfully. -/
def audioInit : AudioState :=
  { streamOpen := true, recording := false, previously_recording := false,
    audio_q := [], current_filename := none, writerRunning := false }

/-- A reachable `Draining` state: start recording, receive one hardware
buffer, stop recording; the writer thread is still alive and the frame is
still queued. -/
def audioDrainingState : AudioState :=
  (stop_recording (audio_callback (start_recording audioInit 0).1 5)).1

/-! ## WhisperManager (src/WhisperManager.py) -/

/-- The two kinds of background task the coordinator runs. -/
inductive TaskKind where
  | modelLoad
  | transcribe
deriving DecidableEq, Repr

/-- How a completion callback reaches its subscriber: forwarded to the UI
context (`root.after(0, ...)`), or called directly on the current thread. -/
inductive Dispatch where
  | marshaled
  | direct
deriving DecidableEq, Repr

/-- `AudioManager._schedule_callback(callback, *args)`: forwards through the
Tk root when both a callback and a root exist, falls back to a direct call
when only the callback exists, does nothing otherwise. -/
def schedule_callback (hasCallback : Bool) (hasRoot : Bool) : Option Dispatch :=
  if hasCallback && hasRoot then some Dispatch.marshaled
  else if hasCallback then some Dispatch.direct
  else none

/-- The mutable fields of `WhisperManager`.  The loaded model object is
identified by the name it was loaded from. -/
structure WhisperState where
  model : Option String
  current_model_name : Option String
  loading : Bool
deriving DecidableEq, Repr

/-- Observable effects of the `WhisperManager` request methods: an error
callback invocation, or the spawn of a background worker thread. -/
inductive WhisperEvent where
  | errorCb (msg : String)
  | taskStarted (kind : TaskKind)
deriving DecidableEq, Repr

/-- `WhisperManager.load_model_async(model_name)`: reject while
`self.loading`; reject an empty name; otherwise set `loading` and spawn
`_load_model_worker`. -/
def load_model_async (s : WhisperState) (model_name : String) :
    WhisperState × List WhisperEvent :=
  if s.loading then
    (s, [WhisperEvent.errorCb "Model is already loading. Please wait."])
  else if model_name = "" then
    (s, [WhisperEvent.errorCb "Please select a model first."])
  else
    ({ s with loading := true }, [WhisperEvent.taskStarted TaskKind.modelLoad])

/-- `WhisperManager.transcribe_async(audio_file_path)`: reject when no model
is loaded; reject an empty path; otherwise spawn `_transcribe_worker`
unconditionally — the method consults no in-flight flag. -/
def transcribe_async (s : WhisperState) (audio_file_path : String) :
    WhisperState × List WhisperEvent :=
  if s.model = none then
    (s, [WhisperEvent.errorCb "No model loaded. Please select and load a model first."])
  else if audio_file_path = "" then
    (s, [WhisperEvent.errorCb "No audio file provided for transcription."])
  else
    (s, [WhisperEvent.taskStarted TaskKind.transcribe])

/-- `WhisperManager` together with the number of worker threads of each kind
currently alive (spawned by a `taskStarted` effect, not yet finished). -/
structure WhisperSys where
  ws : WhisperState
  loadsRunning : Nat
  transcribesRunning : Nat
deriving DecidableEq, Repr

/-- `load_model_async` lifted to the thread-counting system state. -/
def sys_load_model_async (sys : WhisperSys) (name : String) :
    WhisperSys × List WhisperEvent :=
  let r := load_model_async sys.ws name
  ({ sys with
      ws := r.1,
      loadsRunning :=
        if WhisperEvent.taskStarted TaskKind.modelLoad ∈ r.2 then
          sys.loadsRunning + 1
        else sys.loadsRunning }, r.2)

/-- `transcribe_async` lifted to the thread-counting system state. -/
def sys_transcribe_async (sys : WhisperSys) (path : String) :
    WhisperSys × List WhisperEvent :=
  let r := transcribe_async sys.ws path
  ({ sys with
      ws := r.1,
      transcribesRunning :=
        if WhisperEvent.taskStarted TaskKind.transcribe ∈ r.2 then
          sys.transcribesRunning + 1
        else sys.transcribesRunning }, r.2)

/-- The ordered primitive steps performed by `_load_model_worker` once the
load attempt has resolved: field assignments, then exactly one callback
invocation, tagged with how the source dispatches it (a plain call on the
worker thread — `Dispatch.direct`). -/
inductive WorkerStep where
  | setModel (m : Option String)
  | setName (n : Option String)
  | clearedLoading
  | invokedSuccess (d : Dispatch) (name : String)
  | invokedError (d : Dispatch) (msg : String)
deriving DecidableEq, Repr

/-- `WhisperManager._load_model_worker(model_name)`, parametrised by the
outcome of `whisper.load_model`: on success store the model and its name,
clear `loading`, then call `on_model_loaded(model_name)` directly; on
failure clear the model, its name and `loading`, then call `on_error`
directly. -/
def load_model_worker (s : WhisperState) (model_name : String)
    (outcome : Except String Unit) : WhisperState × List WorkerStep :=
  match outcome with
  | Except.ok _ =>
      ({ s with model := some model_name,
                current_model_name := some model_name,
                loading := false },
       [WorkerStep.setModel (some model_name),
        WorkerStep.setName (some model_name),
        WorkerStep.clearedLoading,
        WorkerStep.invokedSuccess Dispatch.direct model_name])
  | Except.error e =>
      ({ s with model := none, current_model_name := none, loading := false },
       [WorkerStep.setModel none,
        WorkerStep.setName none,
        WorkerStep.clearedLoading,
        WorkerStep.invokedError Dispatch.direct
          ("Failed to load model '" ++ model_name ++ "': " ++ e)])

/-- Whether a worker step is a completion-callback invocation. -/
def isCallbackStep : WorkerStep → Bool
  | WorkerStep.invokedSuccess _ _ => true
  | WorkerStep.invokedError _ _ => true
  | _ => false

/-! ## UIStateManager (src/UIStateManager.py) -/

/-- `AppState` from src/UIStateManager.py. -/
inductive AppState where
  | initializing
  | ready
  | model_loading
  | recording
  | processing
  | error
  | no_model
  | no_audio
deriving DecidableEq, Repr

/-- `UIConstants.STATUS_READY`. -/
def STATUS_READY : String := "(Nothing said yet)"

/-- The mutable fields of `UIStateManager`; `has_callback` records whether a
`ui_update_callback` was supplied at construction. -/
structure UIState where
  current_state : AppState
  status_message : String
  has_callback : Bool
deriving DecidableEq, Repr

/-- `UIStateManager._get_default_status_message(state)` (the dictionary
covers every state, so its `.get` fallback is never used). -/
def get_default_status_message : AppState → String
  | AppState.initializing => "Starting up..."
  | AppState.ready => STATUS_READY
  | AppState.model_loading => "Loading model..."
  | AppState.recording => "Recording... Click stop when done"
  | AppState.processing => "Transcribing audio..."
  | AppState.error => "An error occurred"
  | AppState.no_model => "Please select a Whisper model"
  | AppState.no_audio => "Audio system not available"

/-- `UIStateManager.set_state(new_state, status_message)`: when the state is
unchanged do nothing; otherwise update the state, recompute the status
message (override or per-state default) and notify the subscriber once,
synchronously, when one exists.  The returned list is the sequence of
notifications delivered during the call. -/
def set_state (s : UIState) (new_state : AppState) (status_message : Option String) :
    UIState × List AppState :=
  if new_state = s.current_state then
    (s, [])
  else
    ({ s with
        current_state := new_state,
        status_message :=
          match status_message with
          | some m => m
          | none => get_default_status_message new_state },
     if s.has_callback then [new_state] else [])

/-- `UIStateManager.can_change_settings()`. -/
def can_change_settings (s : UIState) : Bool :=
  s.current_state ≠ AppState.recording

/-- The dictionary returned by `UIStateManager.get_button_states()`. -/
structure ButtonStates where
  record_enabled : Bool
  record_text : String
  record_command : String
  settings_enabled : Bool
  model_select_enabled : Bool
deriving DecidableEq, Repr

/-- `UIStateManager.get_button_states()`: the defaults followed by the
if/elif chain over the current state. -/
def get_button_states (s : UIState) : ButtonStates :=
  let states : ButtonStates :=
    { record_enabled := false, record_text := "Record",
      record_command := "record", settings_enabled := true,
      model_select_enabled := true }
  if s.current_state = AppState.ready then
    { states with record_enabled := true, record_text := "Record",
                  record_command := "record" }
  else if s.current_state = AppState.recording then
    { states with record_enabled := true, record_text := "Stop",
                  record_command := "stop", settings_enabled := false,
                  model_select_enabled := false }
  else if s.current_state = AppState.model_loading ∨
          s.current_state = AppState.processing then
    { states with record_enabled := false, settings_enabled := false,
                  model_select_enabled := false }
  else if s.current_state = AppState.no_model ∨
          s.current_state = AppState.no_audio ∨
          s.current_state = AppState.error then
    { states with record_enabled := false }
  else states

/-! ## Helper lemmas about runs of the audio callback -/

lemma run_callbacks_cons (s : AudioState) (f : Frame) (rest : List Frame) :
    run_callbacks s (f :: rest) = run_callbacks (audio_callback s f) rest := rfl

/-- While the recording flag stays set, a run of callbacks appends exactly
the incoming frames, in order, and leaves the previously-active flag set as
soon as a frame has arrived. -/
lemma run_callbacks_of_recording (frames : List Frame) :
    ∀ s : AudioState, s.recording = true →
      run_callbacks s frames =
        { s with audio_q := s.audio_q ++ frames.map QItem.frame,
                 previously_recording := s.previously_recording || !frames.isEmpty } := by
  induction frames with
  | nil => intro s h; simp [run_callbacks]
  | cons f rest ih =>
      intro s h
      rw [run_callbacks_cons]
      have hcb : audio_callback s f =
          { s with audio_q := s.audio_q ++ [QItem.frame f],
                   previously_recording := true } := by
        simp [audio_callback, h]
      rw [hcb, ih _ (by simp [h])]
      simp [h, List.append_assoc]

/-- With the recording flag clear and the previously-active flag clear, the
callback is a no-op, whatever arrives. -/
lemma run_callbacks_of_stopped (frames : List Frame) :
    ∀ s : AudioState, s.recording = false → s.previously_recording = false →
      run_callbacks s frames = s := by
  induction frames with
  | nil => intro s _ _; rfl
  | cons f rest ih =>
      intro s h1 h2
      rw [run_callbacks_cons]
      have hcb : audio_callback s f = s := by
        simp [audio_callback, h1, h2]
      rw [hcb]
      exact ih s h1 h2

/-- With the recording flag clear but the previously-active flag set, the
first callback of a run pushes exactly one sentinel and clears the flag, and
the rest of the run changes nothing. -/
lemma run_callbacks_drain (s : AudioState) (f : Frame) (frames : List Frame)
    (h1 : s.recording = false) (h2 : s.previously_recording = true) :
    run_callbacks s (f :: frames) =
      { s with audio_q := s.audio_q ++ [QItem.sentinel],
               previously_recording := false } := by
  rw [run_callbacks_cons]
  have hcb : audio_callback s f =
      { s with audio_q := s.audio_q ++ [QItem.sentinel],
               previously_recording := false } := by
    simp [audio_callback, h1, h2]
  rw [hcb]
  exact run_callbacks_of_stopped frames _ (by simp [h1]) (by simp)

/-! ## Claim theorems -/

/-- Claim C3: for every recording session (recording flag set, previously
active flag clear), running any nonempty sequence of hardware callbacks
while recording, then clearing the flag (stop request), then running any
further nonempty sequence of callbacks, yields a queue holding exactly the
frames in push order followed by exactly one terminal sentinel, with the
previously-active flag cleared so that no later callback can push a second
sentinel until a new session starts. -/
theorem audio_sentinel_exactly_once (s : AudioState) (frames after : List Frame)
    (hrec : s.recording = true) (hprev : s.previously_recording = false)
    (hf : frames ≠ []) (ha : after ≠ []) :
    (run_callbacks { run_callbacks s frames with recording := false } after).audio_q
        = s.audio_q ++ frames.map QItem.frame ++ [QItem.sentinel] ∧
    (run_callbacks { run_callbacks s frames with recording := false } after).previously_recording
        = false := by
  rcases List.exists_cons_of_ne_nil ha with ⟨a, rest, rfl⟩
  have hfe : frames.isEmpty = false := by
    cases frames with
    | nil => exact absurd rfl hf
    | cons _ _ => rfl
  rw [run_callbacks_of_recording frames s hrec]
  rw [run_callbacks_drain _ a rest (by simp) (by simp [hprev, hfe])]
  constructor
  · simp [List.append_assoc]
  · rfl

/-- Witness for C3 at a concrete session: two frames while recording, two
callbacks after the stop request. -/
theorem audio_sentinel_exactly_once_witness :
    (run_callbacks { run_callbacks (start_recording audioInit 0).1 [1, 2] with
        recording := false } [0, 0]).audio_q
      = (start_recording audioInit 0).1.audio_q ++
          [1, 2].map QItem.frame ++ [QItem.sentinel] ∧
    (run_callbacks { run_callbacks (start_recording audioInit 0).1 [1, 2] with
        recording := false } [0, 0]).previously_recording = false :=
  audio_sentinel_exactly_once (start_recording audioInit 0).1 [1, 2] [0, 0]
    (by decide) (by decide) (by decide) (by decide)

/-- Claim C4: given N pushed frames followed by one terminal sentinel, the
file-writer consumer writes exactly those N frames, in FIFO order, and then
stops, consuming nothing that follows the sentinel. -/
theorem file_writer_writes_exactly (frames : List Frame) (rest : List QItem) :
    file_writer_worker (frames.map QItem.frame ++ QItem.sentinel :: rest)
      = some (frames, rest) := by
  induction frames with
  | nil => rfl
  | cons f fs ih => simp [file_writer_worker, ih]

/-- Claim C6: calling `stop_recording` when the recording flag is clear
reports the not-recording error and returns the state entirely unchanged
(flag, filename, queue and stream included). -/
theorem stop_recording_noop_when_idle (s : AudioState) (h : s.recording = false) :
    stop_recording s = (s, [AudioEvent.error "No recording in progress"]) := by
  simp [stop_recording, h]

/-- Witness for C6 at the freshly constructed manager. -/
theorem stop_recording_noop_when_idle_witness :
    audioInit.recording = false ∧
    stop_recording audioInit = (audioInit, [AudioEvent.error "No recording in progress"]) :=
  ⟨rfl, stop_recording_noop_when_idle audioInit rfl⟩

/-- Claim C5 (amended): `start_recording` fails with the already-recording
error exactly while the recording flag is set (the code's `Capturing`),
leaving the state untouched; when the flag is clear and no stream is open it
fails with the no-stream error; when the flag is clear and a stream is open
it starts a new session — even during `Draining` — clearing the queue. -/
theorem start_recording_guards (s : AudioState) (fresh : Nat) :
    (s.recording = true →
      start_recording s fresh = (s, [AudioEvent.error "Recording is already in progress"])) ∧
    (s.recording = false → s.streamOpen = false →
      start_recording s fresh =
        (s, [AudioEvent.error "No audio stream available. Check audio device."])) ∧
    (s.recording = false → s.streamOpen = true →
      start_recording s fresh =
        ({ s with audio_q := [], current_filename := some fresh,
                  writerRunning := true, recording := true },
         [AudioEvent.recordingStarted])) := by
  refine ⟨fun h => ?_, fun h1 h2 => ?_, fun h1 h2 => ?_⟩ <;>
    simp [start_recording, *]

/-- Witness for C5's amended statement: all three guard branches at concrete
states. -/
theorem start_recording_guards_witness :
    start_recording { audioInit with recording := true } 7 =
      ({ audioInit with recording := true },
       [AudioEvent.error "Recording is already in progress"]) ∧
    start_recording { audioInit with streamOpen := false } 7 =
      ({ audioInit with streamOpen := false },
       [AudioEvent.error "No audio stream available. Check audio device."]) ∧
    start_recording audioInit 7 =
      ({ audioInit with audio_q := [], current_filename := some 7,
                        writerRunning := true, recording := true },
       [AudioEvent.recordingStarted]) :=
  ⟨(start_recording_guards { audioInit with recording := true } 7).1 rfl,
   (start_recording_guards { audioInit with streamOpen := false } 7).2.1 rfl rfl,
   (start_recording_guards audioInit 7).2.2 rfl rfl⟩

/-- Counterexample to C5 as stated: in a reachable `Draining` configuration
(stop requested, writer thread still alive, one frame still queued),
`start_recording` does not fail with the already-recording error — it starts
a new session and clears the original session's queue. -/
theorem start_recording_during_draining :
    draining audioDrainingState = true ∧
    audioDrainingState.audio_q = [QItem.frame 5] ∧
    (start_recording audioDrainingState 1).2 = [AudioEvent.recordingStarted] ∧
    (start_recording audioDrainingState 1).1.audio_q = [] := by
  decide

/-- Claim C8 (amended): `is_ready` returns true exactly when a stream is
open and the recording flag is clear; in particular it returns true, not
false, while the session is `Draining` with the stream open. -/
theorem is_ready_characterization (s : AudioState) :
    (is_ready s = true ↔ s.streamOpen = true ∧ s.recording = false) ∧
    (draining s = true → s.streamOpen = true → is_ready s = true) := by
  constructor
  · simp [is_ready]
  · intro hd hs
    have hr : s.recording = false := by
      have := (Bool.and_eq_true _ _).mp hd
      simpa using this.1
    simp [is_ready, hs, hr]

/-- Witness for C8's amended statement at the reachable `Draining` state. -/
theorem is_ready_characterization_witness :
    draining audioDrainingState = true ∧
    audioDrainingState.streamOpen = true ∧
    is_ready audioDrainingState = true :=
  ⟨by decide, by decide,
   (is_ready_characterization audioDrainingState).2 (by decide) (by decide)⟩

/-- Counterexample to C8 as stated: at a reachable `Draining` configuration
`is_ready` evaluates to true, while the claim requires false. -/
theorem is_ready_true_while_draining :
    draining audioDrainingState = true ∧ is_ready audioDrainingState = true := by
  decide

/-- Claim C1 (amended): a ModelLoad request while a load is in flight is
rejected synchronously with an error callback, leaving the whole system
(flags and thread counts) unchanged and starting no task; Transcribe
requests carry no in-flight guard: whenever a model is loaded and the path
is nonempty, a transcribe request spawns a new worker regardless of how many
transcribe workers are already running. -/
theorem task_in_flight_guards (sys : WhisperSys) (name path : String) :
    (sys.ws.loading = true →
      sys_load_model_async sys name =
        (sys, [WhisperEvent.errorCb "Model is already loading. Please wait."])) ∧
    (sys.ws.model.isSome = true → path ≠ "" →
      (sys_transcribe_async sys path).2 = [WhisperEvent.taskStarted TaskKind.transcribe] ∧
      (sys_transcribe_async sys path).1.transcribesRunning = sys.transcribesRunning + 1 ∧
      (sys_transcribe_async sys path).1.ws = sys.ws) := by
  constructor
  · intro h
    simp [sys_load_model_async, load_model_async, h]
  · intro hm hp
    have hmodel : ¬ sys.ws.model = none := by
      rw [← Option.ne_none_iff_isSome] at hm
      exact hm
    simp [sys_transcribe_async, transcribe_async, hmodel, hp]

/-- Witness for C1's amended statement: a rejected second load, and a
transcribe accepted while one transcribe worker is already running. -/
theorem task_in_flight_guards_witness :
    sys_load_model_async ⟨⟨none, none, true⟩, 1, 0⟩ "base" =
      (⟨⟨none, none, true⟩, 1, 0⟩,
       [WhisperEvent.errorCb "Model is already loading. Please wait."]) ∧
    (sys_transcribe_async ⟨⟨some "base", some "base", false⟩, 0, 1⟩ "a.wav").1.transcribesRunning
      = 2 :=
  ⟨(task_in_flight_guards ⟨⟨none, none, true⟩, 1, 0⟩ "base" "a.wav").1 rfl,
   ((task_in_flight_guards ⟨⟨some "base", some "base", false⟩, 0, 1⟩ "base" "a.wav").2
      rfl (by decide)).2.1⟩

/-- Counterexample to C1 as stated: two transcribe requests in succession
with a model loaded — the second is not rejected while the first worker is
still running; it starts a second concurrent task of the same kind. -/
theorem second_transcribe_not_rejected :
    (sys_transcribe_async ⟨⟨some "base", some "base", false⟩, 0, 0⟩ "a.wav").2
      = [WhisperEvent.taskStarted TaskKind.transcribe] ∧
    (sys_transcribe_async
        (sys_transcribe_async ⟨⟨some "base", some "base", false⟩, 0, 0⟩ "a.wav").1
        "a.wav").2
      = [WhisperEvent.taskStarted TaskKind.transcribe] ∧
    (sys_transcribe_async
        (sys_transcribe_async ⟨⟨some "base", some "base", false⟩, 0, 0⟩ "a.wav").1
        "a.wav").1.transcribesRunning = 2 := by
  decide

/-- Claim C7: once a ModelLoad worker runs, whatever the outcome of the load
attempt, exactly one completion callback is invoked (success or error, never
both, never zero), the loading flag is cleared strictly before that
invocation, and a new load of the same kind started from inside the callback
is accepted. -/
theorem load_worker_one_callback (s : WhisperState) (model_name : String)
    (outcome : Except String Unit) :
    (load_model_worker s model_name outcome).1.loading = false ∧
    ((load_model_worker s model_name outcome).2.filter
        (fun st => isCallbackStep st)).length = 1 ∧
    WorkerStep.clearedLoading ∈
      (load_model_worker s model_name outcome).2.takeWhile
        (fun st => !isCallbackStep st) ∧
    (∀ n2 : String, n2 ≠ "" →
      (load_model_async (load_model_worker s model_name outcome).1 n2).2
        = [WhisperEvent.taskStarted TaskKind.modelLoad]) := by
  cases outcome with
  | ok u =>
      refine ⟨rfl, rfl, ?_, ?_⟩
      · simp [load_model_worker, isCallbackStep, List.takeWhile]
      · intro n2 hn
        simp [load_model_worker, load_model_async, hn]
  | error e =>
      refine ⟨rfl, rfl, ?_, ?_⟩
      · simp [load_model_worker, isCallbackStep, List.takeWhile]
      · intro n2 hn
        simp [load_model_worker, load_model_async, hn]

/-- Witness for C7 at a successful load of "base", restarting with "small"
from inside the callback. -/
theorem load_worker_one_callback_witness :
    (load_model_worker ⟨none, none, true⟩ "base" (Except.ok ())).1.loading = false ∧
    ((load_model_worker ⟨none, none, true⟩ "base" (Except.ok ())).2.filter
        (fun st => isCallbackStep st)).length = 1 ∧
    WorkerStep.clearedLoading ∈
      (load_model_worker ⟨none, none, true⟩ "base" (Except.ok ())).2.takeWhile
        (fun st => !isCallbackStep st) ∧
    (load_model_async (load_model_worker ⟨none, none, true⟩ "base" (Except.ok ())).1
        "small").2 = [WhisperEvent.taskStarted TaskKind.modelLoad] := by
  have h := load_worker_one_callback ⟨none, none, true⟩ "base" (Except.ok ())
  exact ⟨h.1, h.2.1, h.2.2.1, h.2.2.2 "small" (by decide)⟩

/-- Claim C2 (amended): `AudioManager._schedule_callback` marshals through
the Tk root exactly when a root was supplied, falling back to a synchronous
call on the worker otherwise; but `WhisperManager`'s worker invokes its
completion callbacks directly on the worker thread in every case — it has no
marshaling path at all. -/
theorem callback_dispatch_modes (hasCb : Bool) (s : WhisperState) (name : String)
    (outcome : Except String Unit) :
    (schedule_callback hasCb true = if hasCb then some Dispatch.marshaled else none) ∧
    (schedule_callback hasCb false = if hasCb then some Dispatch.direct else none) ∧
    (∀ d n, WorkerStep.invokedSuccess d n ∈ (load_model_worker s name outcome).2 →
      d = Dispatch.direct) ∧
    (∀ d m, WorkerStep.invokedError d m ∈ (load_model_worker s name outcome).2 →
      d = Dispatch.direct) := by
  refine ⟨?_, ?_, ?_, ?_⟩
  · cases hasCb <;> rfl
  · cases hasCb <;> rfl
  · intro d n hm
    cases outcome <;> simp [load_model_worker] at hm
    exact hm.1
  · intro d m hm
    cases outcome <;> simp [load_model_worker] at hm
    exact hm.1

/-- Witness for C2's amended statement. -/
theorem callback_dispatch_modes_witness :
    schedule_callback true true = some Dispatch.marshaled ∧
    schedule_callback true false = some Dispatch.direct ∧
    Dispatch.direct = Dispatch.direct := by
  have h := callback_dispatch_modes true ⟨none, none, true⟩ "base" (Except.ok ())
  exact ⟨h.1, h.2.1, h.2.2.1 Dispatch.direct "base" (by decide)⟩

/-- Counterexample to C2 as stated: the ModelLoad success callback is
dispatched directly on the worker context, not marshaled, even though the
application does run a UI context. -/
theorem model_loaded_callback_runs_on_worker :
    (load_model_worker ⟨none, none, true⟩ "base" (Except.ok ())).2.getLast?
      = some (WorkerStep.invokedSuccess Dispatch.direct "base") ∧
    Dispatch.direct ≠ Dispatch.marshaled := by
  decide

/-- Claim C9: a state-transition request to the current state is a no-op
(no notification, status message untouched); a request to a different state
updates the state, recomputes the status message (override if supplied,
per-state default otherwise) and notifies the subscriber exactly once,
synchronously within the call. -/
theorem set_state_spec (s : UIState) (ns : AppState) (msg : Option String) :
    (ns = s.current_state → set_state s ns msg = (s, [])) ∧
    (ns ≠ s.current_state → s.has_callback = true →
      (set_state s ns msg).1.current_state = ns ∧
      (set_state s ns msg).1.status_message =
        (match msg with
         | some m => m
         | none => get_default_status_message ns) ∧
      (set_state s ns msg).2 = [ns]) := by
  constructor
  · intro h
    simp [set_state, h]
  · intro h hcb
    simp [set_state, h, hcb]

/-- Witness for C9: the no-op branch at `ready → ready`, and a genuine
transition `ready → recording` with the default message. -/
theorem set_state_spec_witness :
    set_state ⟨AppState.ready, STATUS_READY, true⟩ AppState.ready none
      = (⟨AppState.ready, STATUS_READY, true⟩, []) ∧
    (set_state ⟨AppState.ready, STATUS_READY, true⟩ AppState.recording none).1.current_state
      = AppState.recording ∧
    (set_state ⟨AppState.ready, STATUS_READY, true⟩ AppState.recording none).1.status_message
      = get_default_status_message AppState.recording ∧
    (set_state ⟨AppState.ready, STATUS_READY, true⟩ AppState.recording none).2
      = [AppState.recording] := by
  have h1 := (set_state_spec ⟨AppState.ready, STATUS_READY, true⟩ AppState.ready none).1 rfl
  have h2 := (set_state_spec ⟨AppState.ready, STATUS_READY, true⟩ AppState.recording none).2
    (by decide) rfl
  exact ⟨h1, h2.1, h2.2.1, h2.2.2⟩

/-- Claim C10: the settings button is enabled exactly outside
{recording, model_loading, processing}, while `can_change_settings` allows
every state except recording; the former implies the latter, and in
model_loading and processing the button is disabled although settings
changes are legal. -/
theorem settings_enabled_strict_subset (s : UIState) :
    ((get_button_states s).settings_enabled = true ↔
      (s.current_state ≠ AppState.recording ∧
       s.current_state ≠ AppState.model_loading ∧
       s.current_state ≠ AppState.processing)) ∧
    (can_change_settings s = true ↔ s.current_state ≠ AppState.recording) ∧
    ((get_button_states s).settings_enabled = true → can_change_settings s = true) ∧
    (can_change_settings { s with current_state := AppState.model_loading } = true ∧
     (get_button_states { s with current_state := AppState.model_loading }).settings_enabled
       = false ∧
     can_change_settings { s with current_state := AppState.processing } = true ∧
     (get_button_states { s with current_state := AppState.processing }).settings_enabled
       = false) := by
  obtain ⟨st, m, cb⟩ := s
  cases st <;> simp [get_button_states, can_change_settings]

/-- Witness for C10 at the ready state. -/
theorem settings_enabled_strict_subset_witness :
    (get_button_states ⟨AppState.ready, STATUS_READY, true⟩).settings_enabled = true ∧
    can_change_settings ⟨AppState.ready, STATUS_READY, true⟩ = true ∧
    can_change_settings ⟨AppState.model_loading, STATUS_READY, true⟩ = true ∧
    (get_button_states ⟨AppState.model_loading, STATUS_READY, true⟩).settings_enabled
      = false := by
  have h := settings_enabled_strict_subset ⟨AppState.ready, STATUS_READY, true⟩
  exact ⟨by decide, h.2.2.1 (by decide), h.2.2.2.1, h.2.2.2.2.1⟩

end SimpleWhisper
